import Mathlib

/-!
Verification of the credential-registration and session-bootstrap flow of a
Next.js starter template. The only original logic of the repository lives in
`src/components/auth/RegisterForm.tsx`: a client-side registration form with
a four-field validation chain, a `POST /api/auth/register` request, an
automatic `signIn('credentials', …)` call and a redirect to `/`. We embed
the submission handler `handleSubmit` as a pure function from the form state
and the outcomes of the two external calls (the registration fetch and the
credential sign-in) to the resulting component state together with the
ordered list of external effects the handler performed. The server-side
registration endpoint is not part of the sources, so its store-facing
behaviour is modelled from the specification.
-/

namespace RegisterForm

/-- The four controlled input fields of `RegisterForm`
(`name`, `email`, `password`, `confirmPassword` React states). -/
structure FormState where
  name : String
  email : String
  password : String
  confirmPassword : String
deriving DecidableEq, Repr

/-- The JSON body `{ name, email, password }` sent to `/api/auth/register`. -/
structure RegisterRequest where
  name : String
  email : String
  password : String
deriving DecidableEq, Repr

/-- The parsed JSON response body `data`; only its `error` field is read
(`data.error`), which may be absent (`none`) or any string. -/
structure RegisterResponse where
  error : Option String
deriving DecidableEq, Repr

/-- Outcome of `await fetch('/api/auth/register', …)` followed by
`await res.json()`: an ok response with parsed body, a non-ok response with
parsed body, or an exception thrown by the network call or by JSON parsing. -/
inductive RegisterFetchOutcome where
  | ok (body : RegisterResponse)
  | notOk (body : RegisterResponse)
  | threw
deriving DecidableEq, Repr

/-- Outcome of `await signIn('credentials', { email, password, redirect: false })`:
resolved with a successful session, resolved with a failure result
(the code never inspects the resolved value), or rejected with an exception. -/
inductive SignInOutcome where
  | ok
  | failed
  | threw
deriving DecidableEq, Repr

/-- An externally observable effect performed by `handleSubmit`, in program
order: the registration POST, the credential sign-in call (with the argument
values passed), and the assignment `window.location.href = url`. -/
inductive Effect where
  | fetchRegister (req : RegisterRequest)
  | signInCredentials (email password : String) (redirect : Bool)
  | redirectTo (url : String)
deriving DecidableEq, Repr

/-- The component state when `handleSubmit` returns (after the `finally`
block), together with the ordered list of external effects it performed. -/
structure SubmitResult where
  error : String
  success : Bool
  isLoading : Bool
  effects : List Effect
deriving DecidableEq, Repr

/-- The `try { … } catch { … }` block of `handleSubmit`: issue the fetch with
body `{ name, email, password }`; if `res.ok`, set `success`, call
`signIn('credentials', { email, password, redirect: false })` ignoring its
resolved value, and redirect to `/`; if not ok, set the error to
`data.error || 'Registration failed'`; any exception (from the fetch, the
JSON parse, or the sign-in call) is caught and sets the generic message. -/
def registrationAttempt (s : FormState) (fetchRes : RegisterFetchOutcome)
    (signInRes : SignInOutcome) : SubmitResult :=
  let req : RegisterRequest := ⟨s.name, s.email, s.password⟩
  match fetchRes with
  | .threw =>
      { error := "An error occurred during registration", success := false,
        isLoading := false, effects := [.fetchRegister req] }
  | .notOk body =>
      { error := match body.error with
          | some msg => if msg = "" then "Registration failed" else msg
          | none => "Registration failed",
        success := false, isLoading := false, effects := [.fetchRegister req] }
  | .ok _ =>
      match signInRes with
      | .threw =>
          { error := "An error occurred during registration", success := true,
            isLoading := false,
            effects := [.fetchRegister req,
                        .signInCredentials s.email s.password false] }
      | _ =>
          { error := "", success := true, isLoading := false,
            effects := [.fetchRegister req,
                        .signInCredentials s.email s.password false,
                        .redirectTo "/"] }

/-- The submission handler `handleSubmit`: the validation chain
(`!name || !email || !password || !confirmPassword`, then
`password !== confirmPassword`, then `password.length < 6`), each failure
returning early with its message and no external effect; when all checks
pass, the registration attempt runs. -/
def handleSubmit (s : FormState) (fetchRes : RegisterFetchOutcome)
    (signInRes : SignInOutcome) : SubmitResult :=
  if s.name = "" ∨ s.email = "" ∨ s.password = "" ∨ s.confirmPassword = "" then
    { error := "All fields are required", success := false,
      isLoading := false, effects := [] }
  else if s.password ≠ s.confirmPassword then
    { error := "Passwords do not match", success := false,
      isLoading := false, effects := [] }
  else if s.password.length < 6 then
    { error := "Password must be at least 6 characters long", success := false,
      isLoading := false, effects := [] }
  else
    registrationAttempt s fetchRes signInRes

/-- All three client-side validation checks pass. -/
def validationsPass (s : FormState) : Prop :=
  s.name ≠ "" ∧ s.email ≠ "" ∧ s.password ≠ "" ∧ s.confirmPassword ≠ "" ∧
  s.password = s.confirmPassword ∧ ¬ s.password.length < 6

instance (s : FormState) : Decidable (validationsPass s) := by
  unfold validationsPass; infer_instance

/-- A provider record as returned by `getProviders()`
(`ClientSafeProvider`: the fields the component reads). -/
structure ClientSafeProvider where
  id : String
  name : String
  type : String
deriving DecidableEq, Repr

/-- The list `oauthProviders` computed at render time from the `providers`
React state: `null` until (and unless) the `getProviders()` fetch resolves,
else the values of the provider record (`Object.values(providers)`) filtered
to those whose `id` differs from `'credentials'`. -/
def oauthProviders (providers : Option (List ClientSafeProvider)) :
    List ClientSafeProvider :=
  match providers with
  | some ps => ps.filter (fun provider => provider.id ≠ "credentials")
  | none => []

/-- What the component renders (ignoring styling): the success view, or the
credentials form plus - when `oauthProviders.length > 0` - one button per
OAuth provider. -/
structure RenderOutput where
  successView : Bool
  credentialsForm : Bool
  oauthButtons : List ClientSafeProvider
deriving DecidableEq, Repr

/-- The render path of `RegisterForm`: when `success` is set, only the
success message; otherwise the credentials form, and the OAuth button list
exactly when `oauthProviders.length > 0`. -/
def render (success : Bool) (providers : Option (List ClientSafeProvider)) :
    RenderOutput :=
  if success then
    { successView := true, credentialsForm := false, oauthButtons := [] }
  else
    { successView := false, credentialsForm := true,
      oauthButtons :=
        if (oauthProviders providers).length > 0 then oauthProviders providers
        else [] }

end RegisterForm

namespace RegisterApi

/-- An Account row of the Credential Store. -/
structure Account where
  id : Nat
  name : String
  email : String
  passwordHash : String
deriving DecidableEq, Repr

/-- The structured errors of the registration endpoint. -/
inductive RegisterError where
  | validationError (msg : String)
  | conflictError
deriving DecidableEq, Repr

/-- Character-wise lowercasing of a string (the case normalization under
the store's case-insensitive email uniqueness). -/
def lowerString (s : String) : String :=
  ⟨s.data.map Char.toLower⟩

/-- Case-insensitive email comparison (the store enforces case-insensitive
uniqueness of `email`). -/
def emailMatches (a b : String) : Bool :=
  lowerString a = lowerString b

/-- Number of Accounts in the store whose email matches `email`
case-insensitively. -/
def countFor (store : List Account) (email : String) : Nat :=
  (store.filter (fun a => emailMatches a.email email)).length

/-- Modelled from the spec: the Credential Store insert with its atomic
uniqueness constraint on `email` (case-insensitive); the store itself is not
part of the repository. Inserting a duplicate email surfaces a
uniqueness-constraint violation instead of writing. -/
def storeInsert (store : List Account) (acct : Account) :
    Except Unit (List Account) :=
  if store.any (fun a => emailMatches a.email acct.email) then
    .error ()
  else
    .ok (acct :: store)

/-- Modelled from the spec: the server-side registration handler behind
`POST /api/auth/register` is not under `src/`. Following the spec's
validation contract it checks the three fields non-empty, the password
length, then the email-uniqueness pre-check; on pass it hashes the password
and inserts, mapping a uniqueness-constraint violation surfaced by the store
to the same `ConflictError` as the pre-check. Returns the updated store on
success. -/
def registerHandler (store : List Account) (nextId : Nat)
    (hash : String → String) (name email password : String) :
    Except RegisterError (List Account) :=
  if name = "" ∨ email = "" ∨ password = "" then
    .error (.validationError "All fields are required")
  else if password.length < 6 then
    .error (.validationError "Password must be at least 6 characters long")
  else if store.any (fun a => emailMatches a.email email) then
    .error .conflictError
  else
    match storeInsert store ⟨nextId, name, email, hash password⟩ with
    | .ok store₂ => .ok store₂
    | .error _ => .error .conflictError

/-- A concrete stand-in for the slow salted hash used in witnesses; the
handler never inspects the hash, so any injective-on-demand function works. -/
def specHash (password : String) : String :=
  "bcrypt$" ++ password

end RegisterApi

namespace RegisterForm

theorem handleSubmit_of_valid (s : FormState) (f : RegisterFetchOutcome)
    (g : SignInOutcome) (h : validationsPass s) :
    handleSubmit s f g = registrationAttempt s f g := by
  obtain ⟨h1, h2, h3, h4, h5, h6⟩ := h
  unfold handleSubmit
  rw [if_neg, if_neg, if_neg]
  · exact h6
  · simpa using h5
  · simp [h1, h2, h3, h4]

theorem handleSubmit_empty (s : FormState) (f : RegisterFetchOutcome)
    (g : SignInOutcome)
    (h : s.name = "" ∨ s.email = "" ∨ s.password = "" ∨ s.confirmPassword = "") :
    handleSubmit s f g =
      { error := "All fields are required", success := false,
        isLoading := false, effects := [] } := by
  unfold handleSubmit
  rw [if_pos h]

end RegisterForm

namespace RegisterForm

/-- C1: the registration form applies its validation checks in the fixed
order - all fields non-empty, then password equals confirmation, then
password length at least 6 - short-circuiting on the first failure, so a
submission violating several checks reports only the earliest check's error
and performs no external effect. -/
theorem c1_validation_order (s : FormState) (f : RegisterFetchOutcome)
    (g : SignInOutcome) :
    ((s.name = "" ∨ s.email = "" ∨ s.password = "" ∨ s.confirmPassword = "") →
      handleSubmit s f g =
        { error := "All fields are required", success := false,
          isLoading := false, effects := [] }) ∧
    (s.name ≠ "" → s.email ≠ "" → s.password ≠ "" → s.confirmPassword ≠ "" →
      s.password ≠ s.confirmPassword →
      handleSubmit s f g =
        { error := "Passwords do not match", success := false,
          isLoading := false, effects := [] }) ∧
    (s.name ≠ "" → s.email ≠ "" → s.password ≠ "" → s.confirmPassword ≠ "" →
      s.password = s.confirmPassword → s.password.length < 6 →
      handleSubmit s f g =
        { error := "Password must be at least 6 characters long",
          success := false, isLoading := false, effects := [] }) := by
  refine ⟨fun h => handleSubmit_empty s f g h, ?_, ?_⟩
  · intro h1 h2 h3 h4 h5
    unfold handleSubmit
    rw [if_neg (by simp [h1, h2, h3, h4]), if_pos (by simpa using h5)]
  · intro h1 h2 h3 h4 h5 h6
    unfold handleSubmit
    rw [if_neg (by simp [h1, h2, h3, h4]), if_neg (by simpa using h5),
      if_pos h6]

/-- Witness for C1: a submission violating all three checks reports only the
emptiness error; one violating the last two reports only the mismatch; one
violating only the length check reports the length error. -/
theorem c1_validation_order_witness :
    handleSubmit ⟨"", "", "abc", "abd"⟩ (.ok ⟨none⟩) .ok =
      { error := "All fields are required", success := false,
        isLoading := false, effects := [] } ∧
    handleSubmit ⟨"Ada", "ada@example.com", "abc", "abd"⟩ (.ok ⟨none⟩) .ok =
      { error := "Passwords do not match", success := false,
        isLoading := false, effects := [] } ∧
    handleSubmit ⟨"Ada", "ada@example.com", "abc", "abc"⟩ (.ok ⟨none⟩) .ok =
      { error := "Password must be at least 6 characters long",
        success := false, isLoading := false, effects := [] } :=
  ⟨(c1_validation_order ⟨"", "", "abc", "abd"⟩ (.ok ⟨none⟩) .ok).1
      (by decide),
   (c1_validation_order ⟨"Ada", "ada@example.com", "abc", "abd"⟩
      (.ok ⟨none⟩) .ok).2.1 (by decide) (by decide) (by decide) (by decide)
      (by decide),
   (c1_validation_order ⟨"Ada", "ada@example.com", "abc", "abc"⟩
      (.ok ⟨none⟩) .ok).2.2 (by decide) (by decide) (by decide) (by decide)
      (by decide) (by decide)⟩

/-- C3: a submission whose name, email, or password is empty fails with the
error message shown for missing fields and performs zero external effects:
in particular no request reaches the registration endpoint. -/
theorem c3_empty_field_no_request (s : FormState) (f : RegisterFetchOutcome)
    (g : SignInOutcome) (h : s.name = "" ∨ s.email = "" ∨ s.password = "") :
    (handleSubmit s f g).error = "All fields are required" ∧
    (handleSubmit s f g).effects = [] := by
  rw [handleSubmit_empty s f g (by tauto)]
  exact ⟨rfl, rfl⟩

/-- Witness for C3 at an empty email. -/
theorem c3_empty_field_no_request_witness :
    (handleSubmit ⟨"Ada", "", "secret1", "secret1"⟩ .threw .ok).error =
      "All fields are required" ∧
    (handleSubmit ⟨"Ada", "", "secret1", "secret1"⟩ .threw .ok).effects = [] :=
  c3_empty_field_no_request ⟨"Ada", "", "secret1", "secret1"⟩ .threw .ok
    (by decide)

/-- C4: past the non-empty and confirmation checks, the length check rejects
exactly the passwords of length below 6 - with the length error message and
no request - while 6 or more proceeds to the registration request. -/
theorem c4_password_length_gate (s : FormState) (f : RegisterFetchOutcome)
    (g : SignInOutcome) (h1 : s.name ≠ "") (h2 : s.email ≠ "")
    (h3 : s.password ≠ "") (h4 : s.confirmPassword ≠ "")
    (h5 : s.password = s.confirmPassword) :
    (s.password.length < 6 →
      (handleSubmit s f g).error =
        "Password must be at least 6 characters long" ∧
      (handleSubmit s f g).effects = []) ∧
    (6 ≤ s.password.length →
      (handleSubmit s f g).effects.head? =
        some (.fetchRegister ⟨s.name, s.email, s.password⟩)) := by
  constructor
  · intro hlen
    unfold handleSubmit
    rw [if_neg (by simp [h1, h2, h3, h4]), if_neg (by simpa using h5),
      if_pos hlen]
    exact ⟨rfl, rfl⟩
  · intro hlen
    rw [handleSubmit_of_valid s f g ⟨h1, h2, h3, h4, h5, by omega⟩]
    cases f with
    | ok body => cases g <;> rfl
    | notOk body => rfl
    | threw => rfl

/-- Witness for C4: password of length 3 is rejected with no request;
password of length 6 reaches the registration request. -/
theorem c4_password_length_gate_witness :
    ((handleSubmit ⟨"Ada", "ada@example.com", "abc", "abc"⟩
        (.ok ⟨none⟩) .ok).error =
        "Password must be at least 6 characters long" ∧
      (handleSubmit ⟨"Ada", "ada@example.com", "abc", "abc"⟩
        (.ok ⟨none⟩) .ok).effects = []) ∧
    (handleSubmit ⟨"Ada", "ada@example.com", "secret", "secret"⟩
        (.ok ⟨none⟩) .ok).effects.head? =
      some (.fetchRegister ⟨"Ada", "ada@example.com", "secret"⟩) :=
  ⟨(c4_password_length_gate ⟨"Ada", "ada@example.com", "abc", "abc"⟩
      (.ok ⟨none⟩) .ok (by decide) (by decide) (by decide) (by decide)
      (by decide)).1 (by decide),
   (c4_password_length_gate ⟨"Ada", "ada@example.com", "secret", "secret"⟩
      (.ok ⟨none⟩) .ok (by decide) (by decide) (by decide) (by decide)
      (by decide)).2 (by decide)⟩

/-- C9: the confirmation field participates in the emptiness check - with
name, email and password non-empty but confirmPassword empty, the submission
is rejected with the missing-fields message, not the mismatch message, and
no request is sent. -/
theorem c9_confirm_in_emptiness_check (s : FormState)
    (f : RegisterFetchOutcome) (g : SignInOutcome) (h1 : s.name ≠ "")
    (h2 : s.email ≠ "") (h3 : s.password ≠ "")
    (h4 : s.confirmPassword = "") :
    (handleSubmit s f g).error = "All fields are required" ∧
    (handleSubmit s f g).error ≠ "Passwords do not match" ∧
    (handleSubmit s f g).effects = [] := by
  rw [handleSubmit_empty s f g (Or.inr (Or.inr (Or.inr h4)))]
  exact ⟨rfl, by decide, rfl⟩

/-- Witness for C9: non-empty name, email, password with empty confirmation. -/
theorem c9_confirm_in_emptiness_check_witness :
    (handleSubmit ⟨"Ada", "ada@example.com", "secret1", ""⟩
      (.ok ⟨none⟩) .ok).error = "All fields are required" ∧
    (handleSubmit ⟨"Ada", "ada@example.com", "secret1", ""⟩
      (.ok ⟨none⟩) .ok).error ≠ "Passwords do not match" ∧
    (handleSubmit ⟨"Ada", "ada@example.com", "secret1", ""⟩
      (.ok ⟨none⟩) .ok).effects = [] :=
  c9_confirm_in_emptiness_check ⟨"Ada", "ada@example.com", "secret1", ""⟩
    (.ok ⟨none⟩) .ok (by decide) (by decide) (by decide) (by decide)

end RegisterForm

namespace RegisterForm

theorem render_oauthButtons (providers : Option (List ClientSafeProvider)) :
    (render false providers).oauthButtons = oauthProviders providers := by
  unfold render
  rw [if_neg (by simp)]
  by_cases h : (oauthProviders providers).length > 0
  · rw [if_pos h]
  · rw [if_neg h]
    have h0 : (oauthProviders providers).length = 0 := by omega
    exact (List.length_eq_zero.mp h0).symm

theorem registrationAttempt_threw_error (s : FormState) (g : SignInOutcome) :
    (registrationAttempt s .threw g).error =
      "An error occurred during registration" := rfl

theorem registrationAttempt_notOk_error (s : FormState)
    (body : RegisterResponse) (g : SignInOutcome) :
    (registrationAttempt s (.notOk body) g).error =
      match body.error with
      | some msg => if msg = "" then "Registration failed" else msg
      | none => "Registration failed" := rfl

theorem oauthProviders_ne_nil (ps : List ClientSafeProvider) :
    oauthProviders (some ps) ≠ [] ↔ ∃ p ∈ ps, p.id ≠ "credentials" := by
  unfold oauthProviders
  rw [Ne, List.filter_eq_nil_iff]
  push_neg
  simp

/-- C5: the credentials form is rendered regardless of the provider-discovery
outcome (fetch failed or still pending: `providers = none`; empty or
credentials-only record: no non-credentials entry), and OAuth buttons appear
exactly when the fetched provider set has an entry whose id is not
`credentials`. -/
theorem c5_credentials_form_always
    (providers : Option (List ClientSafeProvider)) :
    (render false providers).credentialsForm = true ∧
    ((render false providers).oauthButtons ≠ [] ↔
      ∃ p ∈ providers.getD [], p.id ≠ "credentials") := by
  constructor
  · unfold render
    rw [if_neg (by simp)]
  · rw [render_oauthButtons]
    cases providers with
    | none => simp [oauthProviders]
    | some ps => simpa using oauthProviders_ne_nil ps

/-- C6: on every ok registration response, the sign-in exchange is invoked
with exactly the email and password that the registration request carried:
the first two effects are the fetch with body built from the form state and
the `signIn` call with the same email and password values. -/
theorem c6_signin_uses_submitted_credentials (s : FormState)
    (body : RegisterResponse) (g : SignInOutcome) (hv : validationsPass s) :
    (handleSubmit s (.ok body) g).effects.take 2 =
      [.fetchRegister ⟨s.name, s.email, s.password⟩,
       .signInCredentials s.email s.password false] := by
  rw [handleSubmit_of_valid s (.ok body) g hv]
  cases g <;> rfl

/-- Witness for C6 at the happy-path input. -/
theorem c6_signin_uses_submitted_credentials_witness :
    (handleSubmit ⟨"Ada", "ada@example.com", "secret1", "secret1"⟩
      (.ok ⟨none⟩) .ok).effects.take 2 =
      [.fetchRegister ⟨"Ada", "ada@example.com", "secret1"⟩,
       .signInCredentials "ada@example.com" "secret1" false] :=
  c6_signin_uses_submitted_credentials
    ⟨"Ada", "ada@example.com", "secret1", "secret1"⟩ ⟨none⟩ .ok (by decide)

/-- C7: `handleSubmit` always terminates with a structured outcome - either
the success state or a non-empty inline error message - and a thrown
exception during the request yields the generic registration-error message. -/
theorem c7_no_uncaught_throw (s : FormState) (f : RegisterFetchOutcome)
    (g : SignInOutcome) :
    ((handleSubmit s f g).success = true ∨ (handleSubmit s f g).error ≠ "") ∧
    (validationsPass s → f = .threw →
      (handleSubmit s f g).error = "An error occurred during registration") := by
  constructor
  · unfold handleSubmit
    split_ifs
    · right; decide
    · right; decide
    · right; decide
    · cases f with
      | threw =>
          right
          rw [registrationAttempt_threw_error]
          decide
      | notOk body =>
          right
          rw [registrationAttempt_notOk_error]
          cases body.error with
          | none => decide
          | some msg =>
              by_cases hm : msg = ""
              · show (if msg = "" then "Registration failed" else msg) ≠ ""
                rw [if_pos hm]
                decide
              · show (if msg = "" then "Registration failed" else msg) ≠ ""
                rw [if_neg hm]
                exact hm
      | ok body => left; cases g <;> rfl
  · intro hv hf
    rw [handleSubmit_of_valid s f g hv, hf]
    rfl

/-- Witness for C7: a thrown fetch on a fully valid submission ends in the
generic error message, not a crash. -/
theorem c7_no_uncaught_throw_witness :
    ((handleSubmit ⟨"Ada", "ada@example.com", "secret1", "secret1"⟩
        .threw .ok).success = true ∨
      (handleSubmit ⟨"Ada", "ada@example.com", "secret1", "secret1"⟩
        .threw .ok).error ≠ "") ∧
    (handleSubmit ⟨"Ada", "ada@example.com", "secret1", "secret1"⟩
        .threw .ok).error = "An error occurred during registration" :=
  ⟨(c7_no_uncaught_throw ⟨"Ada", "ada@example.com", "secret1", "secret1"⟩
      .threw .ok).1,
   (c7_no_uncaught_throw ⟨"Ada", "ada@example.com", "secret1", "secret1"⟩
      .threw .ok).2 (by decide) rfl⟩

/-- C10: on every non-ok response the displayed message is the body's
`error` field when present and non-empty, and the fallback
`Registration failed` otherwise. -/
theorem c10_error_display (s : FormState) (body : RegisterResponse)
    (g : SignInOutcome) (hv : validationsPass s) :
    (∀ msg, body.error = some msg → msg ≠ "" →
      (handleSubmit s (.notOk body) g).error = msg) ∧
    (body.error = none ∨ body.error = some "" →
      (handleSubmit s (.notOk body) g).error = "Registration failed") := by
  rw [handleSubmit_of_valid s (.notOk body) g hv]
  constructor
  · intro msg hm hne
    simp [registrationAttempt, hm, hne]
  · rintro (h | h) <;> simp [registrationAttempt, h]

/-- Witness for C10: a present non-empty `error` field is shown verbatim; an
absent one falls back to the generic message. -/
theorem c10_error_display_witness :
    (handleSubmit ⟨"Ada", "ada@example.com", "secret1", "secret1"⟩
      (.notOk ⟨some "User already exists"⟩) .ok).error =
      "User already exists" ∧
    (handleSubmit ⟨"Ada", "ada@example.com", "secret1", "secret1"⟩
      (.notOk ⟨none⟩) .ok).error = "Registration failed" :=
  ⟨(c10_error_display ⟨"Ada", "ada@example.com", "secret1", "secret1"⟩
      ⟨some "User already exists"⟩ .ok (by decide)).1 "User already exists"
      rfl (by decide),
   (c10_error_display ⟨"Ada", "ada@example.com", "secret1", "secret1"⟩
      ⟨none⟩ .ok (by decide)).2 (Or.inl rfl)⟩

/-- C2 counterexample: on a valid submission whose registration succeeds but
whose credential sign-in resolves with a failure, the handler still performs
the full-page redirect to `/` (proceeding as if signed in) instead of
prompting a manual sign-in. -/
theorem c2_counterexample :
    (handleSubmit ⟨"Ada", "ada@example.com", "secret1", "secret1"⟩
      (.ok ⟨none⟩) .failed).success = true ∧
    Effect.redirectTo "/" ∈
      (handleSubmit ⟨"Ada", "ada@example.com", "secret1", "secret1"⟩
        (.ok ⟨none⟩) .failed).effects := by
  decide

/-- C2 amended: when registration succeeds and the session-bootstrap sign-in
fails, the created Account is not rolled back (the handler's only
store-directed effect is the single registration request) and the success
state is still reported, but the client silently redirects to `/` regardless
of the sign-in outcome instead of prompting a manual sign-in. -/
theorem c2_no_rollback_but_redirect (s : FormState)
    (body : RegisterResponse) (hv : validationsPass s) :
    (handleSubmit s (.ok body) .failed).success = true ∧
    (handleSubmit s (.ok body) .failed).effects =
      [.fetchRegister ⟨s.name, s.email, s.password⟩,
       .signInCredentials s.email s.password false,
       .redirectTo "/"] := by
  rw [handleSubmit_of_valid s (.ok body) .failed hv]
  exact ⟨rfl, rfl⟩

/-- Witness for the amended C2 at the happy-path input with a failing
sign-in. -/
theorem c2_no_rollback_but_redirect_witness :
    (handleSubmit ⟨"Ada", "ada@example.com", "secret1", "secret1"⟩
      (.ok ⟨none⟩) .failed).success = true ∧
    (handleSubmit ⟨"Ada", "ada@example.com", "secret1", "secret1"⟩
      (.ok ⟨none⟩) .failed).effects =
      [.fetchRegister ⟨"Ada", "ada@example.com", "secret1"⟩,
       .signInCredentials "ada@example.com" "secret1" false,
       .redirectTo "/"] :=
  c2_no_rollback_but_redirect ⟨"Ada", "ada@example.com", "secret1", "secret1"⟩
    ⟨none⟩ (by decide)

end RegisterForm

namespace RegisterApi

/-- C8: email uniqueness is preserved by every registration. First, after a
successful registration of email `e`, a second valid submission with the
same email fails with `ConflictError` and the store still holds exactly one
Account for `e`. Second, a uniqueness-constraint violation surfaced by the
store insert is answered with the same `ConflictError` as the pre-check. -/
theorem c8_email_uniqueness :
    (∀ (store store₂ : List Account) (nextId nextId' : Nat)
        (hash hash' : String → String) (n e p n' p' : String),
        registerHandler store nextId hash n e p = .ok store₂ →
        n' ≠ "" → ¬ p'.length < 6 →
        registerHandler store₂ nextId' hash' n' e p' =
          .error .conflictError ∧
        countFor store₂ e = 1) ∧
    (∀ (store : List Account) (nextId : Nat) (hash : String → String)
        (n e p : String),
        ¬ (n = "" ∨ e = "" ∨ p = "") → ¬ p.length < 6 →
        storeInsert store ⟨nextId, n, e, hash p⟩ = .error () →
        registerHandler store nextId hash n e p = .error .conflictError) := by
  constructor
  · intro store store₂ nextId nextId' hash hash' n e p n' p' hok hn hp
    unfold registerHandler at hok
    split_ifs at hok with h1 h2 h3
    unfold storeInsert at hok
    rw [if_neg (by simpa using h3)] at hok
    simp only [Except.ok.injEq] at hok
    subst hok
    push_neg at h1
    obtain ⟨hn1, he1, hp1⟩ := h1
    have hpne : p' ≠ "" := by
      intro hh
      exact hp (by rw [hh]; decide)
    have hfilter :
        store.filter (fun a => emailMatches a.email e) = [] := by
      rw [List.filter_eq_nil_iff]
      intro a ha hfa
      exact h3 (List.any_eq_true.mpr ⟨a, ha, hfa⟩)
    constructor
    · unfold registerHandler
      rw [if_neg (by push_neg; exact ⟨hn, he1, hpne⟩), if_neg hp,
        if_pos (by simp [List.any_cons, emailMatches])]
    · unfold countFor
      rw [List.filter_cons_of_pos (by simp [emailMatches]), hfilter]
      rfl
  · intro store nextId hash n e p hne hlen hins
    unfold registerHandler
    rw [if_neg hne, if_neg hlen]
    unfold storeInsert at hins
    split at hins
    · rename_i hc
      rw [if_pos (by simpa using hc)]
    · exact absurd hins (by simp)

/-- Witness for C8: after Bob registers, a second valid registration with
the same email is rejected with `ConflictError` and Bob's Account is the
only one stored for that email; part two applied at the same store. -/
theorem c8_email_uniqueness_witness :
    (registerHandler [⟨1, "Bob", "bob@example.com", specHash "secret1"⟩] 2
        specHash "Bobby" "bob@example.com" "secret2" =
        .error .conflictError ∧
      countFor [⟨1, "Bob", "bob@example.com", specHash "secret1"⟩]
        "bob@example.com" = 1) ∧
    registerHandler [⟨1, "Bob", "bob@example.com", specHash "secret1"⟩] 2
        specHash "Bobby" "bob@example.com" "secret2" =
      .error .conflictError :=
  ⟨c8_email_uniqueness.1 []
      [⟨1, "Bob", "bob@example.com", specHash "secret1"⟩] 1 2 specHash
      specHash "Bob" "bob@example.com" "secret1" "Bobby" "secret2" rfl
      (by decide) (by decide),
   c8_email_uniqueness.2
      [⟨1, "Bob", "bob@example.com", specHash "secret1"⟩] 2 specHash "Bobby"
      "bob@example.com" "secret2" (by decide) (by decide)
      (by unfold storeInsert; rw [if_pos (by decide)])⟩

end RegisterApi
